import Mathlib

/-!
Verification development for the `ParameterParser` component
(`src/annlight/src/ParameterParser.cpp`).

Strings (`std::string`) are modelled as `List Char`.  `unsigned` index
arithmetic is modelled on `Nat` with explicit reduction modulo `2^32`
where the C++ value can wrap.  An out-of-bounds `operator[]` access
(undefined behaviour in C++ when the index exceeds the string size) is
modelled by the `none` outcome of the affected operation; the in-range
access at index = size, which C++ defines to yield the terminating null
character, is modelled faithfully as a non-space character.  File I/O is
modelled by passing file contents (lists of characters) directly;
file-open failures are outside the embedding.
-/

/-- Conversion from a Lean string literal to the `List Char` string model. -/
def str (s : String) : List Char := s.data

/-- The ASCII space character, the only character `trim` removes. -/
def spaceChar : Char := ' '

/-- The newline character used by `getline` and `std::endl`. -/
def newlineChar : Char := '\n'

/-- `2^32`, the modulus of the C++ `unsigned` type used for the index in `trim`. -/
def U32 : Nat := 4294967296

/-- `ParameterParser::NO_DEFAULT_VALUE_STRING = "_#N/A#_"`, the sentinel that
encodes "no value" inside `nameValueMap`. -/
def NO_DEFAULT_VALUE_STRING : List Char := str "_#N/A#_"

/-- `ParameterParser::DEFAULT_COMMENT_STRING = "#"`. -/
def DEFAULT_COMMENT_STRING : List Char := str "#"

/-- Leading-trim loop of `ParameterParser::trim`:
`while (i < str.length() && str[i] == ' ') { str.erase(i, 1); i++; }`.
Each iteration erases one character, so the loop runs at most `str.length`
times; the `fuel` argument makes the recursion structural and is started at
`s.length`.  Fuel and length then decrease in lockstep, so when fuel reaches
`0` the string is empty, the loop guard `i < str.length()` is false, and
returning `s` coincides with the loop exit of the C++ code: the fuel bound is
never actually hit with work remaining.  The increment `i + 1` never wraps
because `i < s.length` holds on entry to the body and all strings considered
are shorter than `2^32`. -/
def leadGo : Nat → List Char → Nat → List Char
  | 0, s, _ => s
  | fuel + 1, s, i =>
    if h : i < s.length then
      if s.get ⟨i, h⟩ = spaceChar then leadGo fuel (s.eraseIdx i) (i + 1) else s
    else s

/-- Trailing-trim loop of `ParameterParser::trim`:
`i = str.length() - 1; while (i >= 0 && str[i] == ' ') { str.erase(i, 1); i--; }`
with `unsigned i`, so `i >= 0` is always true and the loop is guarded only by
`str[i] == ' '`.  `str[i]` with `i < length` reads a character, with
`i = length` reads the terminating null character (never a space, so the loop
exits), and with `i > length` is an out-of-bounds read, modelled as `none`.
Fuel is handled exactly as in `leadGo`: started at `s.length` it tracks the
length, and the fuel-`0` case replicates the guard on the then-empty string. -/
def trailGo : Nat → List Char → Nat → Option (List Char)
  | 0, s, i =>
    if i < s.length then none
    else if i = s.length then some s
    else none
  | fuel + 1, s, i =>
    if h : i < s.length then
      if s.get ⟨i, h⟩ = spaceChar then
        trailGo fuel (s.eraseIdx i) ((i + U32 - 1) % U32)
      else some s
    else if i = s.length then some s
    else none

/-- `ParameterParser::trim`.  The leading loop starts at `i = 0`; the trailing
loop starts at `i = str.length() - 1` computed in unsigned arithmetic, i.e.
`(length + 2^32 - 1) % 2^32`, which wraps to `2^32 - 1` when the string left
by the leading loop is empty.  `none` means the trailing loop performed an
out-of-bounds read (undefined behaviour in the C++ source). -/
def trim (s : List Char) : Option (List Char) :=
  let s1 := leadGo s.length s 0
  trailGo s1.length s1 ((s1.length + U32 - 1) % U32)

/-- `leadsWith pat s` holds when `pat` occurs at the start of `s` (helper for
`std::string::find`). -/
def leadsWith : List Char → List Char → Bool
  | [], _ => true
  | _ :: _, [] => false
  | a :: as, b :: bs => a = b && leadsWith as bs

/-- Position-tracking helper for `findSubstr`. -/
def findSubstrGo (pat : List Char) : List Char → Nat → Option Nat
  | [], i => if leadsWith pat [] then some i else none
  | c :: rest, i =>
    if leadsWith pat (c :: rest) then some i else findSubstrGo pat rest (i + 1)

/-- `std::string::find(pat, 0)`: index of the first occurrence of `pat`,
`none` for `npos`.  The empty pattern is found at index `0`, as in C++. -/
def findSubstr (pat s : List Char) : Option Nat := findSubstrGo pat s 0

/-- `std::string::find(c)` for a single character: index of its first
occurrence, `none` for `npos`. -/
def findCharIdx (c : Char) : List Char → Option Nat
  | [] => none
  | a :: rest =>
    if a = c then some 0 else (findCharIdx c rest).map (fun i => i + 1)

/-- Lexicographic comparison of the `std::map<std::string, ...>` key type:
`std::less<std::string>`, i.e. lexicographic by character value. -/
def strLt : List Char → List Char → Bool
  | _, [] => false
  | [], _ :: _ => true
  | a :: as, b :: bs => a.toNat < b.toNat || (a = b && strLt as bs)

/-- `std::map::find`, on the sorted association list modelling the map. -/
def mapFind (k : List Char) : List (List Char × List Char) → Option (List Char)
  | [] => none
  | e :: rest => if e.1 = k then some e.2 else mapFind k rest

/-- `std::map::insert` for a key not already present: the entry is placed at
its sorted position, keeping the association list ordered by `strLt`. -/
def mapInsert (k v : List Char) : List (List Char × List Char) → List (List Char × List Char)
  | [] => [(k, v)]
  | e :: rest => if strLt k e.1 then (k, v) :: e :: rest else e :: mapInsert k v rest

/-- Assignment through a `std::map` iterator (`found->second = value`):
replaces the value stored at key `k`, leaving everything else unchanged. -/
def mapSet (k v : List Char) : List (List Char × List Char) → List (List Char × List Char)
  | [] => []
  | e :: rest => if e.1 = k then (e.1, v) :: rest else e :: mapSet k v rest

/-- The distinct failure modes of `ParserException`, distinguished in the C++
source only by their message text; each constructor carries the data
interpolated into the corresponding message. -/
inductive ParserError where
  /-- `"Parameter \"<name>\" already exists!"` (from `addParameter`). -/
  | duplicateParameter (name : List Char)
  /-- `"Found parameter without value in line <n> of configuration file \"<f>\"!"` -/
  | parameterWithoutValue (lineNum : Nat) (filename : List Char)
  /-- `"Found identifier without value in line <n> of configuration file \"<f>\"!"` -/
  | identifierWithoutValue (lineNum : Nat) (filename : List Char)
  /-- `"Unknown parameter name: \"<name>\""` (from `getParameterValue`). -/
  | unknownParameter (name : List Char)
  /-- `"No value for parameter \"<name>\" read and no default value defined."` -/
  | noValue (name : List Char)
deriving DecidableEq

deriving instance DecidableEq for Except

/-- The `ParameterParser` object state: the comment delimiter and the
name-to-value map (values use the sentinel `NO_DEFAULT_VALUE_STRING` for
"no value"). -/
structure ParameterParser where
  commentString : List Char
  nameValueMap : List (List Char × List Char)
deriving DecidableEq

/-- The `ParameterParser()` constructor: default comment string, empty map. -/
def ParameterParser.init : ParameterParser :=
  { commentString := DEFAULT_COMMENT_STRING, nameValueMap := [] }

/-- `ParameterParser::addParameter(name, defaultValue)`: fails when the name
is already present; otherwise inserts the default, or the sentinel when the
default is the empty string.  An `Except.error` result models the C++ throw,
which happens before any mutation, so the caller's state is unchanged. -/
def ParameterParser.addParameter (p : ParameterParser) (name defaultValue : List Char) :
    Except ParserError ParameterParser :=
  match mapFind name p.nameValueMap with
  | some _ => Except.error (ParserError.duplicateParameter name)
  | none =>
    if defaultValue = [] then
      Except.ok { p with nameValueMap := mapInsert name NO_DEFAULT_VALUE_STRING p.nameValueMap }
    else
      Except.ok { p with nameValueMap := mapInsert name defaultValue p.nameValueMap }

/-- `ParameterParser::setCommentString`. -/
def ParameterParser.setCommentString (p : ParameterParser) (c : List Char) : ParameterParser :=
  { p with commentString := c }

/-- `ParameterParser::getParameterValue(name)`. -/
def ParameterParser.getParameterValue (p : ParameterParser) (name : List Char) :
    Except ParserError (List Char) :=
  match mapFind name p.nameValueMap with
  | none => Except.error (ParserError.unknownParameter name)
  | some value =>
    if value = NO_DEFAULT_VALUE_STRING then Except.error (ParserError.noValue name)
    else Except.ok value

/-- The diagnostic line `readParameters` prints to `std::cout` for an unknown
identifier. -/
def unknownWarning (name : List Char) : List Char :=
  str "Unknown parameter identifier \"" ++ name ++ str "\" will be ignored!"

/-- Outcome of `readParameters`: the final `nameValueMap` together with the
diagnostics printed so far.  `err` models a thrown `ParserException` (the map
holds everything applied before the throw); `ub` marks that the parse reached
the out-of-bounds read inside `trim` (undefined behaviour), after which the
C++ semantics prescribes nothing. -/
inductive ReadResult where
  | ok (m : List (List Char × List Char)) (warnings : List (List Char))
  | err (e : ParserError) (m : List (List Char × List Char)) (warnings : List (List Char))
  | ub (m : List (List Char × List Char)) (warnings : List (List Char))
deriving DecidableEq

/-- The `while (getline(...))` body of `ParameterParser::readParameters`,
processing the remaining lines; `lineCount` starts at `1` and is incremented
for every consumed line, including skipped ones. -/
def readLoop (cstr fname : List Char) :
    List (List Char) → List (List Char × List Char) → Nat → List (List Char) → ReadResult
  | [], m, _, w => ReadResult.ok m w
  | line :: rest, m, lineCount, w =>
    let lineToParse :=
      match findSubstr cstr line with
      | none => line
      | some i => line.take i
    if lineToParse.length = 0 then
      readLoop cstr fname rest m (lineCount + 1) w
    else
      match findCharIdx spaceChar lineToParse with
      | none => ReadResult.err (ParserError.parameterWithoutValue lineCount fname) m w
      | some nameEnd =>
        match trim (lineToParse.take nameEnd), trim (lineToParse.drop (nameEnd + 1)) with
        | none, _ => ReadResult.ub m w
        | some _, none => ReadResult.ub m w
        | some name, some value =>
          if value = [] then
            ReadResult.err (ParserError.identifierWithoutValue lineCount fname) m w
          else
            match mapFind name m with
            | none => readLoop cstr fname rest m (lineCount + 1) (w ++ [unknownWarning name])
            | some _ => readLoop cstr fname rest (mapSet name value m) (lineCount + 1) w

/-- `getline(stream, line, '\n')` applied repeatedly: splits file content
into lines; a final segment without a terminating newline still yields a
line, and empty content yields no lines. -/
def getLines : List Char → List (List Char)
  | [] => []
  | c :: cs =>
    if c = newlineChar then [] :: getLines cs
    else
      match getLines cs with
      | [] => [[c]]
      | l :: ls => (c :: l) :: ls

/-- `ParameterParser::readParameters(filename)`, with the file's content
passed in place of the file system. -/
def readParameters (p : ParameterParser) (fname content : List Char) : ReadResult :=
  readLoop p.commentString fname (getLines content) p.nameValueMap 1 []

/-- `ParameterParser::writeParameterFile`, as the list of lines written:
the header comment line, then one `name value` line per entry whose stored
string is not the sentinel, in map (insertion-sorted) order. -/
def ParameterParser.writeParameterFile (p : ParameterParser) : List (List Char) :=
  (p.commentString ++ str " Default config file generated by ParameterParser") ::
    (p.nameValueMap.filter (fun e => decide (e.2 ≠ NO_DEFAULT_VALUE_STRING))).map
      (fun e => e.1 ++ [spaceChar] ++ e.2)

/-- `ParameterParser::writeCurrentParameters(stream)`, as the list of lines
written to the stream. -/
def ParameterParser.writeCurrentParameters (p : ParameterParser) : List (List Char) :=
  str "Current parameters:" ::
    p.nameValueMap.map (fun e =>
      if e.2 = NO_DEFAULT_VALUE_STRING then e.1 ++ str " <no value set>"
      else e.1 ++ str " = " ++ e.2)

/-- Joins lines with `std::endl` after each one, as both writers do. -/
def unlines : List (List Char) → List Char
  | [] => []
  | l :: ls => l ++ newlineChar :: unlines ls

/-- Registers a list of name/default pairs in order, stopping at the first
failure — the usual schema-setup call sequence. -/
def regs : ParameterParser → List (List Char × List Char) → Except ParserError ParameterParser
  | p, [] => Except.ok p
  | p, (n, d) :: rest =>
    match p.addParameter n d with
    | Except.error e => Except.error e
    | Except.ok p2 => regs p2 rest

/-- The store obtained by registering `"x"` with the non-empty default
`"_#N/A#_"` — a legitimate call whose default collides with the internal
sentinel. -/
def sentinelDefaultStore : Option ParameterParser :=
  (ParameterParser.init.addParameter (str "x") NO_DEFAULT_VALUE_STRING).toOption

/-- A store in which `"x"` is registered and unset (holds the sentinel). -/
def storeXUnset : ParameterParser :=
  { commentString := DEFAULT_COMMENT_STRING,
    nameValueMap := [(str "x", NO_DEFAULT_VALUE_STRING)] }

/-- A store with two entries in registration (sorted) order: `"a"` holding
`"1"` and `"b"` unset. -/
def storeAB : ParameterParser :=
  { commentString := DEFAULT_COMMENT_STRING,
    nameValueMap := [(str "a", str "1"), (str "b", NO_DEFAULT_VALUE_STRING)] }

/-- The round-trip scenario of the spec: `register("a","1"); register("b")`,
write the default file, then a fresh store with `register("a");
register("b","z")` loads that file; the results of `get("a")` and `get("b")`
are returned (`none` if any intermediate step fails, which it does not). -/
def c2Result : Option (Except ParserError (List Char) × Except ParserError (List Char)) :=
  match regs ParameterParser.init [(str "a", str "1"), (str "b", [])] with
  | Except.error _ => none
  | Except.ok p1 =>
    match regs ParameterParser.init [(str "a", []), (str "b", str "z")] with
    | Except.error _ => none
    | Except.ok p2 =>
      match readParameters p2 (str "F") (unlines p1.writeParameterFile) with
      | ReadResult.ok m _ =>
        some (({ p2 with nameValueMap := m } : ParameterParser).getParameterValue (str "a"),
              ({ p2 with nameValueMap := m } : ParameterParser).getParameterValue (str "b"))
      | _ => none

/-- The comment-stripping scenario of the spec: `"x"` registered without a
default, the file `"x 5 # comment\n"` parsed with the default comment string,
then `get("x")`. -/
def c10Result : Option (Except ParserError (List Char)) :=
  match ParameterParser.init.addParameter (str "x") [] with
  | Except.error _ => none
  | Except.ok p =>
    match readParameters p (str "F") (str "x 5 # comment\n") with
    | ReadResult.ok m _ =>
      some (({ p with nameValueMap := m } : ParameterParser).getParameterValue (str "x"))
    | _ => none

/-- C1: the claim that for every `k ≥ 0` and space-free `s`, a raw string of
`k` spaces, then `s`, then `k` spaces trims to exactly `s` fails on the code
at `k = 2`, `s = "ab"`: the leading loop of `trim` erases the space at
position `i` and then also increments `i`, skipping the character that
slid into position `i`, so only every other leading space is removed and
`"  ab  "` trims to `" ab"`, not to `"ab"` as `trim`'s own documentation
("removing all leading and trailing whitespaces") promises. -/
theorem c1_trim_skips_alternate_leading_spaces :
    trim (str "  ab  ") = some (str " ab") ∧ str " ab" ≠ str "ab" := by decide

/-- C3: the claim that `trim` accesses only in-bounds character positions
fails on the empty string (and on any string the loops empty): the trailing
loop initializes its `unsigned` index to `length - 1`, which wraps to
`2^32 - 1`, and the guard `i >= 0` is vacuously true for an unsigned index,
so `str[4294967295]` is read past the end of the string — the `none`
outcome marking the out-of-bounds access.  A one-space string is emptied by
the leading loop and then hits the same read. -/
theorem c3_trim_reads_out_of_bounds :
    trim [] = none ∧ trim (str " ") = none := by decide

/-- C5: on a line whose value trims to empty the code never reaches its
`"Found identifier without value"` throw: trimming the empty value runs the
trailing loop of `trim` into the out-of-bounds read first, so parsing
`"x \n"` ends in undefined behaviour instead of the `MalformedLineError`
the claim states. -/
theorem c5_empty_value_reaches_out_of_bounds :
    readParameters storeXUnset (str "F") (str "x \n") =
      ReadResult.ub [(str "x", NO_DEFAULT_VALUE_STRING)] [] := by decide

/-- C2 counterexample: in the round-trip scenario the second lookup yields
`Except.ok "z"` — not the `NoValueError` the claim states — because `"b"`
was omitted from the written file and the fresh store registered `"b"` with
default `"z"`, which the load leaves untouched. -/
theorem c2_get_b_returns_default :
    c2Result.map Prod.snd = some (Except.ok (str "z")) ∧
    c2Result.map Prod.snd ≠ some (Except.error (ParserError.noValue (str "b"))) := by
  decide

/-- C2 amended: the round trip yields `get("a") = "1"` and `get("b") = "z"`:
`"b"` had no default in the writing store and was omitted from the file, so
the fresh store's default `"z"` survives the load. -/
theorem c2_round_trip :
    c2Result = some (Except.ok (str "1"), Except.ok (str "z")) := by decide

/-- C10: parsing `"x 5 # comment\n"` with the default comment string into a
store where `"x"` is registered gives `get("x") = "5"`: the line is truncated
at the first `"#"`, the first space splits name from value, and the trailing
space left on the value is trimmed. -/
theorem c10_comment_stripped_value :
    c10Result = some (Except.ok (str "5")) := by decide

/-- C4 counterexample: registering `"x"` with the non-empty default
`"_#N/A#_"` and then calling `get("x")` raises `NoValueError`, although the
claim states every non-empty default is returned — the default collides with
the internal sentinel that encodes "no value". -/
theorem c4_sentinel_default_raises :
    sentinelDefaultStore.map (fun p => p.getParameterValue (str "x")) =
      some (Except.error (ParserError.noValue (str "x"))) ∧
    NO_DEFAULT_VALUE_STRING ≠ [] := by decide

/-- C6 counterexample: after registering `"x"` with the non-empty default
`"_#N/A#_"`, `writeCurrentParameters` prints `"x <no value set>"`, although
the claim reserves that text exactly for slots never set and never given a
default — the stored default is indistinguishable from the sentinel. -/
theorem c6_sentinel_default_prints_unset :
    sentinelDefaultStore.map ParameterParser.writeCurrentParameters =
      some [str "Current parameters:", str "x <no value set>"] ∧
    NO_DEFAULT_VALUE_STRING ≠ [] := by decide

/-- C8 counterexample: after registering `"x"` with the non-empty default
`"_#N/A#_"`, `writeParameterFile` writes only the header line and omits
`"x"`, although the claim states every parameter currently holding a value
(default or loaded) gets a line — the stored default equals the sentinel and
is skipped. -/
theorem c8_sentinel_default_omitted :
    sentinelDefaultStore.map ParameterParser.writeParameterFile =
      some [str "# Default config file generated by ParameterParser"] ∧
    NO_DEFAULT_VALUE_STRING ≠ [] := by decide

/-- Characters with equal code points are equal. -/
theorem charEq_of_toNat_eq (a b : Char) (h : a.toNat = b.toNat) : a = b := by
  have ha := Char.ofNat_toNat a
  rw [h, Char.ofNat_toNat] at ha
  exact ha.symm

/-- `strLt` is transitive. -/
theorem strLt_trans (a : List Char) :
    ∀ b c, strLt a b = true → strLt b c = true → strLt a c = true := by
  induction a with
  | nil =>
    intro b c h1 h2
    cases b with
    | nil => simp [strLt] at h1
    | cons b0 bs =>
      cases c with
      | nil => simp [strLt] at h2
      | cons c0 cs => simp [strLt]
  | cons a0 as ih =>
    intro b c h1 h2
    cases b with
    | nil => simp [strLt] at h1
    | cons b0 bs =>
      cases c with
      | nil => simp [strLt] at h2
      | cons c0 cs =>
        simp only [strLt, Bool.or_eq_true, Bool.and_eq_true, decide_eq_true_eq] at h1 h2 ⊢
        rcases h1 with h1 | ⟨rfl, h1⟩
        · rcases h2 with h2 | ⟨rfl, h2⟩
          · exact Or.inl (Nat.lt_trans h1 h2)
          · exact Or.inl h1
        · rcases h2 with h2 | ⟨rfl, h2⟩
          · exact Or.inl h2
          · exact Or.inr ⟨rfl, ih bs cs h1 h2⟩

/-- `strLt` is total: distinct strings compare one way or the other. -/
theorem strLt_total (a : List Char) :
    ∀ b, a = b ∨ strLt a b = true ∨ strLt b a = true := by
  induction a with
  | nil =>
    intro b
    cases b with
    | nil => exact Or.inl rfl
    | cons b0 bs => exact Or.inr (Or.inl (by simp [strLt]))
  | cons a0 as ih =>
    intro b
    cases b with
    | nil => exact Or.inr (Or.inr (by simp [strLt]))
    | cons b0 bs =>
      by_cases h0 : a0 = b0
      · subst h0
        rcases ih bs with h | h | h
        · exact Or.inl (by rw [h])
        · exact Or.inr (Or.inl (by simp [strLt, h]))
        · exact Or.inr (Or.inr (by simp [strLt, h]))
      · have hne : a0.toNat ≠ b0.toNat := fun hq => h0 (charEq_of_toNat_eq a0 b0 hq)
        rcases Nat.lt_or_ge a0.toNat b0.toNat with hlt | hge
        · exact Or.inr (Or.inl (by simp [strLt, hlt]))
        · have hgt : b0.toNat < a0.toNat :=
            Nat.lt_of_le_of_ne hge (fun hq => hne hq.symm)
          exact Or.inr (Or.inr (by simp [strLt, hgt]))

/-- `mapFind` hits the entry `mapInsert` adds, provided the key was absent. -/
theorem mapFind_mapInsert_self (k v : List Char) (m : List (List Char × List Char))
    (h : mapFind k m = none) : mapFind k (mapInsert k v m) = some v := by
  induction m with
  | nil => simp [mapInsert, mapFind]
  | cons e rest ih =>
    rw [mapFind] at h
    by_cases h1 : e.1 = k
    · rw [if_pos h1] at h; exact absurd h (by simp)
    · rw [if_neg h1] at h
      rw [mapInsert]
      by_cases hlt : strLt k e.1 = true
      · rw [if_pos hlt, mapFind]
        simp
      · rw [if_neg hlt, mapFind, if_neg h1]
        exact ih h

/-- A successful `mapFind` exhibits membership of the entry in the map. -/
theorem mapFind_mem (k v : List Char) (m : List (List Char × List Char))
    (h : mapFind k m = some v) : (k, v) ∈ m := by
  induction m with
  | nil => simp [mapFind] at h
  | cons e rest ih =>
    obtain ⟨e1, e2⟩ := e
    rw [mapFind] at h
    by_cases h1 : e1 = k
    · rw [if_pos (by simpa using h1)] at h
      obtain rfl : e2 = v := by simpa using h
      subst h1
      exact List.mem_cons_self _ _
    · rw [if_neg (by simpa using h1)] at h
      exact List.mem_cons_of_mem _ (ih h)

/-- Membership in `mapInsert`: the inserted entry or one of the old ones. -/
theorem mem_mapInsert (x : List Char × List Char) (k v : List Char)
    (m : List (List Char × List Char)) (h : x ∈ mapInsert k v m) :
    x = (k, v) ∨ x ∈ m := by
  induction m with
  | nil => simp [mapInsert] at h; simp [h]
  | cons e rest ih =>
    rw [mapInsert] at h
    by_cases hlt : strLt k e.1 = true
    · rw [if_pos hlt] at h
      rcases List.mem_cons.mp h with h2 | h2
      · exact Or.inl h2
      · exact Or.inr h2
    · rw [if_neg hlt] at h
      rcases List.mem_cons.mp h with h2 | h2
      · exact Or.inr (h2 ▸ List.mem_cons_self _ _)
      · rcases ih h2 with h3 | h3
        · exact Or.inl h3
        · exact Or.inr (List.mem_cons_of_mem _ h3)

/-- Inserting an absent key preserves sortedness of the map. -/
theorem pairwise_mapInsert (k v : List Char) (m : List (List Char × List Char))
    (habs : mapFind k m = none)
    (h : m.Pairwise (fun a b => strLt a.1 b.1 = true)) :
    (mapInsert k v m).Pairwise (fun a b => strLt a.1 b.1 = true) := by
  induction m with
  | nil => simp [mapInsert]
  | cons e rest ih =>
    rw [mapFind] at habs
    by_cases h1 : e.1 = k
    · rw [if_pos h1] at habs; exact absurd habs (by simp)
    · rw [if_neg h1] at habs
      rw [List.pairwise_cons] at h
      obtain ⟨he, hrest⟩ := h
      rw [mapInsert]
      by_cases hlt : strLt k e.1 = true
      · rw [if_pos hlt, List.pairwise_cons]
        constructor
        · intro x hx
          rcases List.mem_cons.mp hx with rfl | hx2
          · exact hlt
          · exact strLt_trans k e.1 x.1 hlt (he x hx2)
        · rw [List.pairwise_cons]
          exact ⟨he, hrest⟩
      · rw [if_neg hlt, List.pairwise_cons]
        constructor
        · intro x hx
          rcases mem_mapInsert x k v rest hx with rfl | hx2
          · rcases strLt_total e.1 k with heq | hlt2 | hgt
            · exact absurd heq h1
            · exact hlt2
            · exact absurd hgt hlt
          · exact he x hx2
        · exact ih habs hrest

/-- A store whose map is sorted stays sorted across a successful
`addParameter` call. -/
theorem addParameter_pairwise (p p2 : ParameterParser) (name d : List Char)
    (h : p.addParameter name d = Except.ok p2)
    (hs : p.nameValueMap.Pairwise (fun a b => strLt a.1 b.1 = true)) :
    p2.nameValueMap.Pairwise (fun a b => strLt a.1 b.1 = true) := by
  unfold ParameterParser.addParameter at h
  cases hfind : mapFind name p.nameValueMap with
  | some v => rw [hfind] at h; exact absurd h (by simp)
  | none =>
    rw [hfind] at h
    by_cases hd0 : d = []
    · rw [if_pos hd0] at h
      obtain rfl : p2 = _ := by simpa using h.symm
      exact pairwise_mapInsert name NO_DEFAULT_VALUE_STRING p.nameValueMap hfind hs
    · rw [if_neg hd0] at h
      obtain rfl : p2 = _ := by simpa using h.symm
      exact pairwise_mapInsert name d p.nameValueMap hfind hs

/-- `addParameter` on an absent name inserts the default, or the sentinel
for an empty default. -/
theorem addParameter_absent (p : ParameterParser) (name d : List Char)
    (habs : mapFind name p.nameValueMap = none) :
    p.addParameter name d = Except.ok { p with
      nameValueMap := mapInsert name (if d = [] then NO_DEFAULT_VALUE_STRING else d) p.nameValueMap } := by
  unfold ParameterParser.addParameter
  rw [habs]
  by_cases hd0 : d = []
  · simp [hd0]
  · simp [hd0]

/-- `getParameterValue` on a found entry: the sentinel raises `NoValueError`,
anything else is returned. -/
theorem getParameterValue_found (p : ParameterParser) (name v : List Char)
    (h : mapFind name p.nameValueMap = some v) :
    p.getParameterValue name =
      (if v = NO_DEFAULT_VALUE_STRING then Except.error (ParserError.noValue name)
       else Except.ok v) := by
  unfold ParameterParser.getParameterValue
  rw [h]

/-- C7: registering a name that already exists in the store always fails with
`DuplicateParameterError`, regardless of the old or new default value; the
exception is thrown before any mutation, so the error outcome carries no new
state and the existing entry is untouched. -/
theorem c7_duplicate_registration (p : ParameterParser) (name d v : List Char)
    (h : mapFind name p.nameValueMap = some v) :
    p.addParameter name d = Except.error (ParserError.duplicateParameter name) := by
  unfold ParameterParser.addParameter
  rw [h]

/-- Witness for C7 at a concrete store: `"x"` already registered, a second
registration with a different default fails. -/
theorem c7_duplicate_registration_witness :
    mapFind (str "x") storeXUnset.nameValueMap = some NO_DEFAULT_VALUE_STRING ∧
    storeXUnset.addParameter (str "x") (str "2") =
      Except.error (ParserError.duplicateParameter (str "x")) :=
  ⟨by decide,
   c7_duplicate_registration storeXUnset (str "x") (str "2") NO_DEFAULT_VALUE_STRING
     (by decide)⟩

/-- C4 amended: for every absent name and every default different from the
internal sentinel `"_#N/A#_"`, `register` followed by `get` with no
intervening load returns the default when it is non-empty and raises
`NoValueError` when it is empty.  (A non-empty default equal to the sentinel
is the counterexample to the original claim.) -/
theorem c4_register_then_get (p : ParameterParser) (name d : List Char)
    (habs : mapFind name p.nameValueMap = none)
    (hd : d ≠ NO_DEFAULT_VALUE_STRING) :
    ∃ p2, p.addParameter name d = Except.ok p2 ∧
      p2.getParameterValue name =
        (if d = [] then Except.error (ParserError.noValue name) else Except.ok d) := by
  refine ⟨_, addParameter_absent p name d habs, ?_⟩
  rw [getParameterValue_found _ name (if d = [] then NO_DEFAULT_VALUE_STRING else d)
      (mapFind_mapInsert_self name _ p.nameValueMap habs)]
  by_cases hd0 : d = []
  · simp [hd0]
  · simp [hd0, hd]

/-- Witness for C4 at a concrete input: registering `"x"` with default `"1"`
on the empty store, then reading it back. -/
theorem c4_register_then_get_witness :
    mapFind (str "x") ParameterParser.init.nameValueMap = none ∧
    str "1" ≠ NO_DEFAULT_VALUE_STRING ∧
    (∃ p2, ParameterParser.init.addParameter (str "x") (str "1") = Except.ok p2 ∧
      p2.getParameterValue (str "x") =
        (if str "1" = [] then Except.error (ParserError.noValue (str "x"))
         else Except.ok (str "1"))) :=
  ⟨by decide, by decide,
   c4_register_then_get ParameterParser.init (str "x") (str "1") (by decide) (by decide)⟩

/-- C6 amended: `writeCurrentParameters` writes the header line
`"Current parameters:"` and then exactly one line per registered parameter;
an entry prints `"name <no value set>"` precisely when its stored string
equals the sentinel `"_#N/A#_"` — which is the state of every slot never set
by a parse and never defaulted, but also of a slot whose default or parsed
value is the literal sentinel text — and `"name = value"` otherwise. -/
theorem c6_dump_lines (p : ParameterParser) (name v : List Char)
    (h : mapFind name p.nameValueMap = some v) :
    p.writeCurrentParameters.length = 1 + p.nameValueMap.length ∧
    p.writeCurrentParameters.head? = some (str "Current parameters:") ∧
    (if v = NO_DEFAULT_VALUE_STRING then name ++ str " <no value set>"
     else name ++ str " = " ++ v) ∈ p.writeCurrentParameters := by
  refine ⟨?_, rfl, ?_⟩
  · simp [ParameterParser.writeCurrentParameters, Nat.add_comm]
  · have hm := mapFind_mem name v p.nameValueMap h
    unfold ParameterParser.writeCurrentParameters
    refine List.mem_cons_of_mem _ ?_
    have hmap := List.mem_map_of_mem
      (fun e : List Char × List Char =>
        if e.2 = NO_DEFAULT_VALUE_STRING then e.1 ++ str " <no value set>"
        else e.1 ++ str " = " ++ e.2) hm
    simpa using hmap

/-- Witness for C6 at a concrete store: `"x"` registered and unset prints
`"x <no value set>"`. -/
theorem c6_dump_lines_witness :
    mapFind (str "x") storeXUnset.nameValueMap = some NO_DEFAULT_VALUE_STRING ∧
    (storeXUnset.writeCurrentParameters.length = 1 + storeXUnset.nameValueMap.length ∧
     storeXUnset.writeCurrentParameters.head? = some (str "Current parameters:") ∧
     (if NO_DEFAULT_VALUE_STRING = NO_DEFAULT_VALUE_STRING then
        str "x" ++ str " <no value set>"
      else str "x" ++ str " = " ++ NO_DEFAULT_VALUE_STRING) ∈
       storeXUnset.writeCurrentParameters) :=
  ⟨by decide, c6_dump_lines storeXUnset (str "x") NO_DEFAULT_VALUE_STRING (by decide)⟩

/-- C8 amended: on a store whose map is sorted (as registration keeps it),
`writeParameterFile` writes the header line built from the current comment
string, then one `name value` line for every entry whose stored string
differs from the sentinel `"_#N/A#_"` — so an entry registered or loaded
with the literal sentinel text is omitted even though it was given a value —
skipping sentinel entries entirely, with the emitted names in lexicographic
order. -/
theorem c8_default_file_lines (p : ParameterParser)
    (hs : p.nameValueMap.Pairwise (fun a b => strLt a.1 b.1 = true)) :
    p.writeParameterFile =
      (p.commentString ++ str " Default config file generated by ParameterParser") ::
        (p.nameValueMap.filter (fun e => decide (e.2 ≠ NO_DEFAULT_VALUE_STRING))).map
          (fun e => e.1 ++ [spaceChar] ++ e.2) ∧
    ((p.nameValueMap.filter (fun e => decide (e.2 ≠ NO_DEFAULT_VALUE_STRING))).map
        (fun e => e.1)).Pairwise (fun a b => strLt a b = true) := by
  constructor
  · rfl
  · rw [List.pairwise_map]
    exact hs.sublist (List.filter_sublist _)

/-- Witness for C8 at a concrete sorted store: `"a"` holds `"1"`, `"b"` is
unset; the file is the header plus the single line `"a 1"`. -/
theorem c8_default_file_lines_witness :
    storeAB.nameValueMap.Pairwise (fun a b => strLt a.1 b.1 = true) ∧
    (storeAB.writeParameterFile =
      (storeAB.commentString ++ str " Default config file generated by ParameterParser") ::
        (storeAB.nameValueMap.filter (fun e => decide (e.2 ≠ NO_DEFAULT_VALUE_STRING))).map
          (fun e => e.1 ++ [spaceChar] ++ e.2) ∧
     ((storeAB.nameValueMap.filter (fun e => decide (e.2 ≠ NO_DEFAULT_VALUE_STRING))).map
        (fun e => e.1)).Pairwise (fun a b => strLt a b = true)) :=
  ⟨by decide, c8_default_file_lines storeAB (by decide)⟩

/-- C9: a line that truncates to non-empty content, splits at a first space,
trims (without reaching the out-of-bounds read) to a non-empty value, and
names an identifier absent from the map, is consumed without failing: the
parse of that line succeeds, the map is returned unchanged, and exactly one
warning notification for that identifier is appended to the diagnostics. -/
theorem c9_unknown_identifier_line (cstr fname line content name value : List Char)
    (m : List (List Char × List Char)) (n : Nat) (w : List (List Char)) (nameEnd : Nat)
    (hcontent : (match findSubstr cstr line with
                 | none => line
                 | some i => line.take i) = content)
    (hne : ¬ content.length = 0)
    (hsplit : findCharIdx spaceChar content = some nameEnd)
    (hname : trim (content.take nameEnd) = some name)
    (hvalue : trim (content.drop (nameEnd + 1)) = some value)
    (hv : ¬ value = [])
    (hunknown : mapFind name m = none) :
    readLoop cstr fname [line] m n w = ReadResult.ok m (w ++ [unknownWarning name]) := by
  simp only [readLoop, hcontent, hsplit, hname, hvalue, hunknown, if_neg hne, if_neg hv]

/-- Witness for C9 at the concrete input of the spec: parsing
`"unknownname 5"` against a store that only knows `"x"`. -/
theorem c9_unknown_identifier_line_witness :
    (match findSubstr (str "#") (str "unknownname 5") with
     | none => str "unknownname 5"
     | some i => (str "unknownname 5").take i) = str "unknownname 5" ∧
    ¬ (str "unknownname 5").length = 0 ∧
    findCharIdx spaceChar (str "unknownname 5") = some 11 ∧
    trim ((str "unknownname 5").take 11) = some (str "unknownname") ∧
    trim ((str "unknownname 5").drop 12) = some (str "5") ∧
    ¬ str "5" = [] ∧
    mapFind (str "unknownname") [(str "x", str "1")] = none ∧
    readLoop (str "#") (str "F") [str "unknownname 5"] [(str "x", str "1")] 1 [] =
      ReadResult.ok [(str "x", str "1")] ([] ++ [unknownWarning (str "unknownname")]) :=
  ⟨by decide, by decide, by decide, by decide, by decide, by decide, by decide,
   c9_unknown_identifier_line (str "#") (str "F") (str "unknownname 5")
     (str "unknownname 5") (str "unknownname") (str "5") [(str "x", str "1")] 1 [] 11
     (by decide) (by decide) (by decide) (by decide) (by decide) (by decide) (by decide)⟩
